import Mathlib

/-!
Verification of the pane lifecycle / dispatch logic of `src/canvas/src/terminal.ts`
(the claude-canvas launcher).

The TypeScript module is embedded shallowly:
* external host processes (osascript, tmux) become oracle functions supplied as
  parameters, each returning the exit status / captured stdout the real process
  would report;
* the single registry file `/tmp/claude-canvas-pane-id` becomes explicit state
  of type `Option String` (`none` = file absent, `some s` = file with content `s`);
* thrown JavaScript errors in `spawnCanvas` become `Except String`;
* the I/O errors that `getCanvasPaneId` catches become injected fault flags.

Each function keeps the name of the TypeScript function it embeds.
-/

namespace ClaudeCanvas

/-- Result of a synchronous host-command invocation as Node reports it:
`status` is `none` when the process could not be launched (spawn error),
otherwise the numeric exit code; `stdout` is `none` when no output was
captured. -/
structure SpawnSyncResult where
  status : Option Nat
  stdout : Option String
deriving Repr, DecidableEq

/-- Fault injection for the file I/O inside `getCanvasPaneId`'s try/catch:
`readErr` means reading the registry file throws, `writeErr` means the
stale-cleanup write throws. Both are swallowed by the catch block. -/
structure IOFaults where
  readErr : Bool
  writeErr : Bool
deriving Repr, DecidableEq

/-- No injected faults: the normal I/O behaviour. -/
def noFaults : IOFaults := ⟨false, false⟩

/-- JavaScript's `String.prototype.trim`: the string with leading and trailing
whitespace removed (modelled over the character list so it is fully
executable). -/
def jsTrim (s : String) : String :=
  ⟨((s.data.dropWhile Char.isWhitespace).reverse.dropWhile
      Char.isWhitespace).reverse⟩

/-- `!!process.env.TMUX` (terminal.ts line 11): the TMUX variable is truthy
exactly when it is set and non-empty. -/
def tmuxPresent : Option String → Bool
  | none => false
  | some s => s != ""

/-- The environment classification record returned by `detectTerminal`
(terminal.ts lines 3-8). -/
structure TerminalEnvironment where
  inTmux : Bool
  inGhostty : Bool
  isMacOS : Bool
  summary : String
deriving Repr, DecidableEq

/-- `detectTerminal` (terminal.ts lines 10-25), as a pure function of the three
environment signals it reads: the TMUX variable, TERM_PROGRAM, and
process.platform. -/
def detectTerminal (tmuxEnv termProgram : Option String) (platform : String) :
    TerminalEnvironment :=
  let inTmux := tmuxPresent tmuxEnv
  let inGhostty := termProgram == some "ghostty"
  let isMacOS := platform == "darwin"
  { inTmux := inTmux
    inGhostty := inGhostty
    isMacOS := isMacOS
    summary :=
      if inGhostty && isMacOS then "ghostty (macOS)"
      else if inTmux then "tmux"
      else "unsupported" }

/-- The file-reading fragment of `getCanvasPaneId` (terminal.ts lines 110-112):
if the registry file is absent there is no stored reference, otherwise the
reference is the file content with surrounding whitespace trimmed. -/
def readPaneFile : Option String → Option String
  | none => none
  | some content => some (jsTrim content)

/-- `saveCanvasPaneId` (terminal.ts lines 129-131): the registry file content
after overwriting it with `paneId`. -/
def saveCanvasPaneId (paneId : String) : Option String := some paneId

/-- What `getCanvasPaneId` produces: the returned reference (`none` = null),
the registry file content afterwards, and the list of targets of the
`tmux display-message` lookups it issued. -/
structure RegReadOut where
  ref : Option String
  file : Option String
  lookups : List String
deriving Repr, DecidableEq

/-- `getCanvasPaneId` (terminal.ts lines 108-127). `lookup paneId` models
`spawnSync("tmux", ["display-message", "-t", paneId, "-p", ...])`.
The stored reference is valid only if the lookup exits with status 0 and its
trimmed stdout equals the trimmed stored id; otherwise the file is overwritten
with empty content (unless that write faults, in which case the catch block
swallows the error) and null is returned. A read fault is likewise swallowed
and yields null without any lookup. -/
def getCanvasPaneId (faults : IOFaults) (lookup : String → SpawnSyncResult)
    (file : Option String) : RegReadOut :=
  if faults.readErr then ⟨none, file, []⟩
  else
    match readPaneFile file with
    | none => ⟨none, file, []⟩
    | some paneId =>
      let r := lookup paneId
      if r.status = some 0 ∧ r.stdout.map jsTrim = some paneId then
        ⟨some paneId, file, [paneId]⟩
      else
        ⟨none, if faults.writeErr then file else some "", [paneId]⟩

/-- The tmux side of the host, one oracle per distinct tmux command the module
issues: `lookup` models `display-message -t <pane> -p "#\x7bpane_id\x7d"`
(used by `getCanvasPaneId`); `reuse paneId command` collapses the whole
send-keys interrupt / wait / clear-and-run sequence of `reuseExistingPane`
into its end-to-end success flag; `split command` models
`split-window -h -p 67 -P -F ... command` in `createNewPane`, returning
`none` on a spawn error and otherwise the exit code with captured stdout. -/
structure TmuxHost where
  lookup : String → SpawnSyncResult
  reuse : String → String → Bool
  split : String → Option (Nat × String)

/-- What `createNewPane` produces: its resolved boolean and the registry file
content afterwards. -/
structure CreateOut where
  ok : Bool
  file : Option String
deriving Repr, DecidableEq

/-- `createNewPane` (terminal.ts lines 133-152): runs the split-window
command; on exit code 0 with non-empty trimmed stdout the new pane id is
persisted via `saveCanvasPaneId`; the promise resolves to `code === 0`
(false on a spawn error). -/
def createNewPane (h : TmuxHost) (file : Option String) (command : String) :
    CreateOut :=
  match h.split command with
  | none => ⟨false, file⟩
  | some (code, out) =>
      ⟨code == 0,
       if code = 0 ∧ jsTrim out ≠ "" then saveCanvasPaneId (jsTrim out)
       else file⟩

/-- What `spawnTmux` produces: its resolved boolean, the registry file content
afterwards, the (paneId, command) of the reuse attempt if one was made, the
display-message lookups issued, and whether `createNewPane` was invoked. -/
structure TmuxOut where
  ok : Bool
  file : Option String
  reuseAttempted : Option (String × String)
  lookups : List String
  createAttempted : Bool
deriving Repr, DecidableEq

/-- `spawnTmux` (terminal.ts lines 172-188): read-and-validate the stored pane
id; if a (truthy, i.e. non-empty) id came back, try to reuse that pane and
succeed if reuse succeeded; otherwise overwrite the registry file with empty
content and fall through to `createNewPane`. With no usable id, go straight
to `createNewPane`. -/
def spawnTmux (h : TmuxHost) (faults : IOFaults) (command : String)
    (file : Option String) : TmuxOut :=
  let g := getCanvasPaneId faults h.lookup file
  match g.ref with
  | some paneId =>
    if paneId = "" then
      let c := createNewPane h g.file command
      ⟨c.ok, c.file, none, g.lookups, true⟩
    else if h.reuse paneId command then
      ⟨true, g.file, some (paneId, command), g.lookups, false⟩
    else
      let c := createNewPane h (some "") command
      ⟨c.ok, c.file, some (paneId, command), g.lookups, true⟩
  | none =>
    let c := createNewPane h g.file command
    ⟨c.ok, c.file, none, g.lookups, true⟩

/-- The result record `spawnCanvas` returns (terminal.ts lines 27-30): the
dispatch method used and an optional process id. -/
structure SpawnResult where
  method : String
  pid : Option Nat
deriving Repr, DecidableEq

/-- The error message `spawnCanvas` throws when no supported host is found
(terminal.ts lines 76-78). -/
def unsupportedError : String :=
  "Canvas requires Ghostty (macOS) or tmux. Please run inside one of these environments."

/-- The full host: `ghostty command` models the osascript automation of
`spawnGhostty` (true iff the osascript process exits 0), plus the tmux
oracles. -/
structure CanvasHost where
  ghostty : String → Bool
  tmux : TmuxHost

/-- What the dispatch portion of `spawnCanvas` produces: the returned result
or thrown error, the registry file content afterwards, and the invocation
trace (was the Ghostty adapter attempted, was `spawnTmux` invoked, plus the
inner tmux trace). -/
structure DispatchOut where
  result : Except String SpawnResult
  file : Option String
  ghosttyAttempted : Bool
  tmuxInvoked : Bool
  reuseAttempted : Option (String × String)
  createAttempted : Bool

/-- The dispatch portion of `spawnCanvas` (terminal.ts lines 66-78), given the
already-detected environment and the already-built command string: try
Ghostty first when `inGhostty && isMacOS`, returning method "ghostty" on
success; otherwise fall through to `spawnTmux` when `inTmux`, returning
method "tmux" on success; otherwise throw the unsupported-environment
error. Neither success path sets `pid`. -/
def spawnCanvasDispatch (h : CanvasHost) (faults : IOFaults)
    (env : TerminalEnvironment) (command : String)
    (file : Option String) : DispatchOut :=
  if env.inGhostty && env.isMacOS then
    if h.ghostty command then
      ⟨.ok ⟨"ghostty", none⟩, file, true, false, none, false⟩
    else if env.inTmux then
      let t := spawnTmux h.tmux faults command file
      ⟨if t.ok then .ok ⟨"tmux", none⟩ else .error unsupportedError,
       t.file, true, true, t.reuseAttempted, t.createAttempted⟩
    else
      ⟨.error unsupportedError, file, true, false, none, false⟩
  else if env.inTmux then
    let t := spawnTmux h.tmux faults command file
    ⟨if t.ok then .ok ⟨"tmux", none⟩ else .error unsupportedError,
     t.file, false, true, t.reuseAttempted, t.createAttempted⟩
  else
    ⟨.error unsupportedError, file, false, false, none, false⟩

/-- `command.replace(/"/g, String.raw "backslash quote")` in `spawnGhostty`
(terminal.ts line 92): every double-quote character becomes
backslash-quote. -/
def replaceQuotes : List Char → List Char
  | [] => []
  | c :: rest =>
      if c = '"' then '\\' :: '"' :: replaceQuotes rest
      else c :: replaceQuotes rest

/-- `.replace(/\\/g, ...)` in `spawnGhostty` (terminal.ts line 92): every
backslash character is doubled. -/
def doubleBackslashes : List Char → List Char
  | [] => []
  | c :: rest =>
      if c = '\\' then '\\' :: '\\' :: doubleBackslashes rest
      else c :: doubleBackslashes rest

/-- The escaping `spawnGhostty` applies to the command before interpolating it
into the double-quoted keystroke line of the osascript source (terminal.ts
line 92), in source order: quotes are escaped first, then every backslash —
including the ones just inserted — is doubled. -/
def escapeForKeystroke (command : List Char) : List Char :=
  doubleBackslashes (replaceQuotes command)

/-- Second definition, following the spec's words rather than the source, for
the refinement claim that the typed text "denotes the original command":
the denotation of the body of a double-quoted AppleScript string literal.
Backslash-quote denotes a quote and backslash-backslash denotes a backslash;
a bare double quote would close the literal early and a trailing or invalid
escape leaves no denotation, so those cases denote nothing. -/
def appleScriptUnescape : List Char → Option (List Char)
  | [] => some []
  | ['\\'] => none
  | '\\' :: c :: rest =>
      if c = '"' ∨ c = '\\' then (appleScriptUnescape rest).map (c :: ·)
      else none
  | c :: rest =>
      if c = '"' then none
      else (appleScriptUnescape rest).map (c :: ·)

/-- C9: for every combination of the three environment signals, detection is
total (the summary is always one of the three classifications) and follows
first-match order: Ghostty with macOS wins, else the tmux marker, else
unsupported. -/
theorem detectTerminal_total_first_match (t g : Option String) (p : String) :
    ((detectTerminal t g p).summary = "ghostty (macOS)" ∨
     (detectTerminal t g p).summary = "tmux" ∨
     (detectTerminal t g p).summary = "unsupported") ∧
    ((detectTerminal t g p).summary = "ghostty (macOS)" ↔
      ((detectTerminal t g p).inGhostty = true ∧
       (detectTerminal t g p).isMacOS = true)) ∧
    ((detectTerminal t g p).summary = "tmux" ↔
      (¬((detectTerminal t g p).inGhostty = true ∧
         (detectTerminal t g p).isMacOS = true) ∧
       (detectTerminal t g p).inTmux = true)) ∧
    ((detectTerminal t g p).summary = "unsupported" ↔
      (¬((detectTerminal t g p).inGhostty = true ∧
         (detectTerminal t g p).isMacOS = true) ∧
       ¬(detectTerminal t g p).inTmux = true)) := by
  cases h1 : tmuxPresent t <;> cases h2 : (g == some "ghostty") <;>
    cases h3 : (p == "darwin") <;> simp [detectTerminal, h1, h2, h3]

/-- C9 witness: inside tmux, inside Ghostty, on macOS, the classification is
the Ghostty-on-macOS one. -/
theorem detectTerminal_total_first_match_witness :
    (detectTerminal (some "1") (some "ghostty") "darwin").summary =
      "ghostty (macOS)" :=
  (detectTerminal_total_first_match (some "1") (some "ghostty") "darwin").2.1.mpr
    (by decide)

/-- C2: the stored pane reference validates (getCanvasPaneId returns it)
exactly when the file read did not fault, the tmux lookup exited with status
0, and the lookup's trimmed stdout equals the stored (trimmed) identifier;
in every other case — including injected I/O faults, which the catch block
swallows rather than propagating — the reference is reported absent
(`none`), never anything else. -/
theorem getCanvasPaneId_valid_iff (faults : IOFaults)
    (lookup : String → SpawnSyncResult) (content : String) :
    ((getCanvasPaneId faults lookup (some content)).ref = some (jsTrim content) ↔
      (faults.readErr = false ∧ (lookup (jsTrim content)).status = some 0 ∧
       (lookup (jsTrim content)).stdout.map jsTrim = some (jsTrim content))) ∧
    ((getCanvasPaneId faults lookup (some content)).ref = none ∨
     (getCanvasPaneId faults lookup (some content)).ref =
       some (jsTrim content)) := by
  unfold getCanvasPaneId readPaneFile
  cases hr : faults.readErr
  case true => simp
  case false =>
    simp only [Bool.false_eq_true, if_false]
    split
    next hv => simp [hv.1, hv.2]
    next hv =>
      constructor
      · simp only [RegReadOut.ref]
        constructor
        · intro hq; exact absurd hq (by simp)
        · intro hq; exact absurd ⟨hq.2.1, hq.2.2⟩ hv
      · simp

/-- C2 witness: a host that echoes the stored id (with surrounding whitespace,
which the code trims) at exit status 0 validates the reference. -/
theorem getCanvasPaneId_valid_iff_witness :
    (getCanvasPaneId noFaults (fun _ => ⟨some 0, some " %1 "⟩)
      (some "%1")).ref = some (jsTrim "%1") :=
  (getCanvasPaneId_valid_iff noFaults (fun _ => ⟨some 0, some " %1 "⟩)
    "%1").1.mpr ⟨rfl, by decide, by decide⟩

/-- C8 counterexample: the claim "save(x) then read() yields a reference equal
to x" fails for an identifier carrying trailing whitespace, because the read
path trims the file content: saving "%1 " reads back as "%1". -/
theorem readPaneFile_roundtrip_counterexample :
    ¬(readPaneFile (saveCanvasPaneId "%1 ") = some "%1 ") := by decide

/-- C8 (amended): save(x) followed by the read step yields x trimmed of
surrounding whitespace, hence a reference equal to x for every identifier
without leading or trailing whitespace (which is every identifier the module
itself saves, since it trims before saving). -/
theorem readPaneFile_roundtrip_trimmed (x : String) (hx : jsTrim x = x) :
    readPaneFile (saveCanvasPaneId x) = some x := by
  simp [readPaneFile, saveCanvasPaneId, hx]

/-- C8 witness: the round trip is exact on the whitespace-free identifier
"%1". -/
theorem readPaneFile_roundtrip_trimmed_witness :
    readPaneFile (saveCanvasPaneId "%1") = some "%1" :=
  readPaneFile_roundtrip_trimmed "%1" (by decide)

/-- C6 counterexample: with the registry file present but holding empty
content, `getCanvasPaneId` does issue a tmux lookup (targeting the empty
identifier), contradicting the claim that no host lookup command is issued
in that state. -/
theorem getCanvasPaneId_empty_lookup_counterexample :
    ¬((getCanvasPaneId noFaults (fun _ => ⟨some 1, none⟩)
        (some "")).lookups = []) := by decide

/-- C6 (amended): when the registry file is absent the read reports no
reference and issues no host lookup; when the file exists with empty content
the code does issue exactly one host lookup, targeting the empty identifier,
but the multiplexer dispatch still never attempts pane reuse in that
state. -/
theorem registry_absent_or_empty (faults : IOFaults)
    (lookup : String → SpawnSyncResult) (h : TmuxHost) (command : String) :
    (getCanvasPaneId faults lookup none).ref = none ∧
    (getCanvasPaneId faults lookup none).lookups = [] ∧
    (getCanvasPaneId noFaults lookup (some "")).lookups = [""] ∧
    (spawnTmux h faults command (some "")).reuseAttempted = none := by
  have he : readPaneFile (some "") = some "" := by decide
  have hn : noFaults.readErr = false := rfl
  refine ⟨?_, ?_, ?_, ?_⟩
  · unfold getCanvasPaneId; cases faults.readErr <;> simp [readPaneFile]
  · unfold getCanvasPaneId; cases faults.readErr <;> simp [readPaneFile]
  · simp only [getCanvasPaneId, he, hn, Bool.false_eq_true, if_false]
    split <;> rfl
  · cases hr : faults.readErr
    case true => simp [spawnTmux, getCanvasPaneId, hr]
    case false =>
      simp only [spawnTmux, getCanvasPaneId, he, hr, Bool.false_eq_true,
        if_false]
      split
      case h_1 =>
        rename_i paneId heq
        split at heq
        · simp only [Option.some.injEq] at heq
          subst heq
          simp
        · simp at heq
      case h_2 => simp

/-- C6 witness: with an empty registry file, dispatch through `spawnTmux`
makes no reuse attempt even against a host whose reuse step would
succeed. -/
theorem registry_absent_or_empty_witness :
    (spawnTmux ⟨fun _ => ⟨some 1, none⟩, fun _ _ => true, fun _ => some (0, "%2")⟩
      noFaults "c" (some "")).reuseAttempted = none :=
  (registry_absent_or_empty noFaults (fun _ => ⟨some 1, none⟩)
    ⟨fun _ => ⟨some 1, none⟩, fun _ _ => true, fun _ => some (0, "%2")⟩
    "c").2.2.2

/-- C7: the escaping bug. `spawnGhostty` escapes quotes first and only then
doubles every backslash, so the backslash inserted in front of a quote gets
doubled: a command containing a double quote is typed as
backslash-backslash-quote, whose AppleScript denotation is not the original
command (the bare quote would close the keystroke literal early, so the
escaped text denotes nothing), whereas the correctly escaped text
(backslash-quote) does denote the original command. -/
theorem escapeForKeystroke_quote_bug :
    escapeForKeystroke ['a', '"', 'b'] = ['a', '\\', '\\', '"', 'b'] ∧
    appleScriptUnescape (escapeForKeystroke ['a', '"', 'b']) = none ∧
    appleScriptUnescape ['a', '\\', '"', 'b'] = some ['a', '"', 'b'] := by
  decide

/-- C3: Ghostty is attempted whenever its signal (Ghostty with supported OS)
is present; the tmux adapter is invoked exactly when the tmux signal is
present and the Ghostty attempt is absent or failed; and when the Ghostty
attempt succeeds the dispatch returns method "ghostty" without invoking the
tmux adapter. -/
theorem spawnCanvasDispatch_gui_first (h : CanvasHost) (faults : IOFaults)
    (env : TerminalEnvironment) (command : String) (file : Option String) :
    ((spawnCanvasDispatch h faults env command file).tmuxInvoked = true ↔
      (env.inTmux = true ∧
       ((env.inGhostty && env.isMacOS) = false ∨ h.ghostty command = false))) ∧
    ((env.inGhostty && env.isMacOS) = true →
      (spawnCanvasDispatch h faults env command file).ghosttyAttempted = true) ∧
    ((env.inGhostty && env.isMacOS) = true → h.ghostty command = true →
      (spawnCanvasDispatch h faults env command file).result =
        Except.ok ⟨"ghostty", none⟩ ∧
      (spawnCanvasDispatch h faults env command file).tmuxInvoked = false) := by
  cases hgm : env.inGhostty && env.isMacOS <;> cases hg : h.ghostty command <;>
    cases ht : env.inTmux <;> simp [spawnCanvasDispatch, hgm, hg, ht]

/-- C3 witness: with both signals present and a succeeding Ghostty
automation, the dispatch returns method "ghostty" and never touches tmux. -/
theorem spawnCanvasDispatch_gui_first_witness :
    (spawnCanvasDispatch ⟨fun _ => true, ⟨fun _ => ⟨some 1, none⟩,
        fun _ _ => false, fun _ => none⟩⟩ noFaults
      ⟨true, true, true, "ghostty (macOS)"⟩ "c" none).result =
        Except.ok ⟨"ghostty", none⟩ ∧
    (spawnCanvasDispatch ⟨fun _ => true, ⟨fun _ => ⟨some 1, none⟩,
        fun _ _ => false, fun _ => none⟩⟩ noFaults
      ⟨true, true, true, "ghostty (macOS)"⟩ "c" none).tmuxInvoked = false :=
  (spawnCanvasDispatch_gui_first _ _ _ _ _).2.2 rfl rfl

/-- C5: when neither the Ghostty-with-macOS combination nor the tmux marker
is present, the dispatch throws the descriptive unsupported-environment
error instead of returning a result. -/
theorem spawnCanvasDispatch_unsupported_throws (h : CanvasHost)
    (faults : IOFaults) (env : TerminalEnvironment) (command : String)
    (file : Option String)
    (hgm : (env.inGhostty && env.isMacOS) = false) (ht : env.inTmux = false) :
    (spawnCanvasDispatch h faults env command file).result =
      Except.error unsupportedError := by
  simp [spawnCanvasDispatch, hgm, ht]

/-- C5 witness: with no environment markers at all, the dispatch produces the
unsupported-environment error. -/
theorem spawnCanvasDispatch_unsupported_throws_witness :
    (spawnCanvasDispatch ⟨fun _ => false, ⟨fun _ => ⟨none, none⟩,
        fun _ _ => false, fun _ => none⟩⟩ noFaults
      ⟨false, false, false, "unsupported"⟩ "c" none).result =
      Except.error unsupportedError :=
  spawnCanvasDispatch_unsupported_throws _ _ _ _ _ rfl rfl

/-- C10: every successful dispatch result carries no pid — although
SpawnResult declares the optional field, neither success path populates
it. -/
theorem spawnCanvasDispatch_pid_never_set (h : CanvasHost) (faults : IOFaults)
    (env : TerminalEnvironment) (command : String) (file : Option String)
    (r : SpawnResult)
    (hr : (spawnCanvasDispatch h faults env command file).result =
      Except.ok r) :
    r.pid = none := by
  cases hgm : env.inGhostty && env.isMacOS <;> cases hg : h.ghostty command <;>
    cases ht : env.inTmux <;>
    cases hok : (spawnTmux h.tmux faults command file).ok <;>
    simp [spawnCanvasDispatch, hgm, hg, ht, hok] at hr <;>
    simp [← hr]

/-- C10 witness: a successful Ghostty dispatch yields a result whose pid is
absent. -/
theorem spawnCanvasDispatch_pid_never_set_witness :
    (⟨"ghostty", none⟩ : SpawnResult).pid = none :=
  spawnCanvasDispatch_pid_never_set ⟨fun _ => true, ⟨fun _ => ⟨none, none⟩,
      fun _ _ => false, fun _ => none⟩⟩ noFaults
    ⟨false, true, true, "ghostty (macOS)"⟩ "c" none ⟨"ghostty", none⟩ rfl

/-- C4: in the multiplexer environment with no registry entry, the dispatch
invokes `createNewPane` (and never a reuse attempt); when the split-window
command succeeds with a non-empty pane id on stdout, that trimmed id is
persisted to the registry file and the dispatch returns method "tmux". -/
theorem spawnCanvasDispatch_fresh_pane (h : CanvasHost) (faults : IOFaults)
    (env : TerminalEnvironment) (command out : String)
    (hgm : (env.inGhostty && env.isMacOS) = false)
    (ht : env.inTmux = true)
    (hsplit : h.tmux.split command = some (0, out))
    (hout : jsTrim out ≠ "") :
    (spawnCanvasDispatch h faults env command none).result =
      Except.ok ⟨"tmux", none⟩ ∧
    (spawnCanvasDispatch h faults env command none).file =
      some (jsTrim out) ∧
    (spawnCanvasDispatch h faults env command none).createAttempted = true ∧
    (spawnCanvasDispatch h faults env command none).reuseAttempted = none := by
  have hg : getCanvasPaneId faults h.tmux.lookup none = ⟨none, none, []⟩ := by
    unfold getCanvasPaneId; cases faults.readErr <;> simp [readPaneFile]
  simp [spawnCanvasDispatch, hgm, ht, spawnTmux, hg, createNewPane, hsplit,
    hout, saveCanvasPaneId]

/-- C4 witness: a tmux-only environment, empty registry, and a host whose
split reports pane id " %5" (newline-padded) yields a "tmux" result with
"%5" persisted. -/
theorem spawnCanvasDispatch_fresh_pane_witness :
    (spawnCanvasDispatch ⟨fun _ => false, ⟨fun _ => ⟨some 1, none⟩,
        fun _ _ => false, fun _ => some (0, " %5\n")⟩⟩ noFaults
      ⟨true, false, false, "tmux"⟩ "c" none).result =
      Except.ok ⟨"tmux", none⟩ ∧
    (spawnCanvasDispatch ⟨fun _ => false, ⟨fun _ => ⟨some 1, none⟩,
        fun _ _ => false, fun _ => some (0, " %5\n")⟩⟩ noFaults
      ⟨true, false, false, "tmux"⟩ "c" none).file = some "%5" := by
  have hw := spawnCanvasDispatch_fresh_pane ⟨fun _ => false,
    ⟨fun _ => ⟨some 1, none⟩, fun _ _ => false, fun _ => some (0, " %5\n")⟩⟩
    noFaults ⟨true, false, false, "tmux"⟩ "c" " %5\n" rfl rfl rfl (by decide)
  exact ⟨hw.1, by rw [hw.2.1]; decide⟩

/-- C1: when the registry file holds a pane id that the host lookup fails to
resolve (non-zero status) or resolves to a different identifier, the
dispatch makes no reuse attempt, the stale-cleanup overwrites the registry
file with empty content, `createNewPane` is invoked, and — the creation
succeeding with a non-empty id — the freshly captured trimmed id is
persisted and the dispatch returns method "tmux". -/
theorem spawnCanvasDispatch_stale_recovery (h : CanvasHost)
    (env : TerminalEnvironment) (command content out : String)
    (hgm : (env.inGhostty && env.isMacOS) = false)
    (ht : env.inTmux = true)
    (_hc : jsTrim content ≠ "")
    (hstale : ¬((h.tmux.lookup (jsTrim content)).status = some 0 ∧
        (h.tmux.lookup (jsTrim content)).stdout.map jsTrim =
          some (jsTrim content)))
    (hsplit : h.tmux.split command = some (0, out))
    (hout : jsTrim out ≠ "") :
    (getCanvasPaneId noFaults h.tmux.lookup (some content)).file = some "" ∧
    (spawnCanvasDispatch h noFaults env command
      (some content)).reuseAttempted = none ∧
    (spawnCanvasDispatch h noFaults env command
      (some content)).createAttempted = true ∧
    (spawnCanvasDispatch h noFaults env command (some content)).file =
      some (jsTrim out) ∧
    (spawnCanvasDispatch h noFaults env command (some content)).result =
      Except.ok ⟨"tmux", none⟩ := by
  have hreg : getCanvasPaneId noFaults h.tmux.lookup (some content) =
      ⟨none, some "", [jsTrim content]⟩ := by
    unfold getCanvasPaneId readPaneFile
    simp only [show noFaults.readErr = false from rfl, Bool.false_eq_true,
      if_false]
    rw [if_neg hstale]
    simp [show noFaults.writeErr = false from rfl]
  simp [spawnCanvasDispatch, hgm, ht, spawnTmux, hreg, createNewPane, hsplit,
    hout, saveCanvasPaneId]

/-- C1 witness: a registry holding " %3 " while the host resolves that id to
"%9" (a different pane) triggers the stale path: no reuse, the file is
cleared, and the fresh pane "%7" ends up persisted with a "tmux" result. -/
theorem spawnCanvasDispatch_stale_recovery_witness :
    (getCanvasPaneId noFaults (fun _ => ⟨some 0, some "%9"⟩)
      (some " %3 ")).file = some "" ∧
    (spawnCanvasDispatch ⟨fun _ => false, ⟨fun _ => ⟨some 0, some "%9"⟩,
        fun _ _ => true, fun _ => some (0, "%7")⟩⟩ noFaults
      ⟨true, false, false, "tmux"⟩ "c" (some " %3 ")).reuseAttempted = none ∧
    (spawnCanvasDispatch ⟨fun _ => false, ⟨fun _ => ⟨some 0, some "%9"⟩,
        fun _ _ => true, fun _ => some (0, "%7")⟩⟩ noFaults
      ⟨true, false, false, "tmux"⟩ "c" (some " %3 ")).file = some "%7" ∧
    (spawnCanvasDispatch ⟨fun _ => false, ⟨fun _ => ⟨some 0, some "%9"⟩,
        fun _ _ => true, fun _ => some (0, "%7")⟩⟩ noFaults
      ⟨true, false, false, "tmux"⟩ "c" (some " %3 ")).result =
      Except.ok ⟨"tmux", none⟩ := by
  have hw := spawnCanvasDispatch_stale_recovery ⟨fun _ => false,
      ⟨fun _ => ⟨some 0, some "%9"⟩, fun _ _ => true, fun _ => some (0, "%7")⟩⟩
    ⟨true, false, false, "tmux"⟩ "c" " %3 " "%7" rfl rfl (by decide)
    (by decide) rfl (by decide)
  exact ⟨hw.1, hw.2.1, by rw [hw.2.2.2.1]; decide, hw.2.2.2.2⟩

end ClaudeCanvas
